import Mathlib

/-!
# A model of `static/script.js`

The script is the browser client of a chat and document-upload service.  It keeps a
session identity in `localStorage`, posts chat messages, uploads a file and loads a
visualisation into an embedded frame.

The page is modelled as a record `State`.  Every handler is a function from the
outcome of its one network call to a state transformer which also reports how the
handler completed (normally, or with a thrown value).  A thrown value keeps the state
changes made before it, as in JavaScript.
-/

set_option autoImplicit false

namespace RagClient

/-! ## JavaScript values -/

/-- A JavaScript number: a finite value `± mant * 2 ^ exp`, an infinity, or NaN. -/
inductive JSNumber where
  | finite (negative : Bool) (mant : Nat) (exp : Int)
  | infinity (negative : Bool)
  | nan

/-- JavaScript values, as far as the script can meet them: what `response.json()`
resolves to, and `undefined` for a property that is not there. -/
inductive JSVal where
  | undefined
  | null
  | bool (b : Bool)
  | num (n : JSNumber)
  | str (s : String)
  | arr (items : List JSVal)
  | obj (fields : List (String × JSVal))

/-- The values a handler can throw or a promise can reject with. -/
inductive JSError where
  /-- `fetch` rejected: the request could not be carried out. -/
  | fetchFailed
  /-- `response.json()` rejected: the body is not JSON. -/
  | jsonSyntax
  /-- A property was read from `null` or `undefined`. -/
  | typeError
  deriving DecidableEq, Repr

/-- ToBoolean on a number: zero and NaN are falsy. -/
def JSNumber.truthy : JSNumber → Bool
  | .finite _ mant _ => mant != 0
  | .infinity _ => true
  | .nan => false

/-- ToBoolean: the test made by `if (v)` and negated by `!v`. -/
def truthy : JSVal → Bool
  | .undefined => false
  | .null => false
  | .bool b => b
  | .num n => n.truthy
  | .str s => s != ""
  | .arr _ => true
  | .obj _ => true

/-- The property read `data.key` for a name that is on no built-in prototype (the
script reads `response`, `message` and `url`): an own property of an object, `undefined`
when there is none, and a TypeError on `null` and `undefined`. -/
def getProp (data : JSVal) (key : String) : Except JSError JSVal :=
  match data with
  | .undefined => .error .typeError
  | .null => .error .typeError
  | .obj fields =>
      match fields.lookup key with
      | some v => .ok v
      | none => .ok .undefined
  | _ => .ok .undefined

/-! ## Numbers: `Math.floor(Math.random() * 10000)` -/

/-- A non-negative finite double `mant / 2 ^ exp`. -/
structure Double where
  mant : Nat
  exp : Nat
  deriving DecidableEq, Repr

/-- The doubles `Math.random()` may return: a significand of at most 53 bits, a
binary exponent no smaller than that of the least subnormal, and a value in `[0, 1)`. -/
def Double.isRandomDraw (x : Double) : Prop :=
  x.mant < 2 ^ 53 ∧ x.exp ≤ 1074 ∧ x.mant < 2 ^ x.exp

instance (x : Double) : Decidable x.isRandomDraw := by
  unfold Double.isRandomDraw; infer_instance

/-- Number of binary digits of `n`, by halving at most `fuel` times. -/
def bitLengthAux : Nat → Nat → Nat
  | 0, _ => 0
  | fuel + 1, n => if n = 0 then 0 else bitLengthAux fuel (n / 2) + 1

/-- Number of binary digits of `n` (`0` for `0`). -/
def bitLength (n : Nat) : Nat := bitLengthAux n n

/-- Round the natural number `n` to 53 significant bits, to nearest, ties to even:
the result is again a natural number, a multiple of `2 ^ (bitLength n - 53)`. -/
def roundSignificand (n : Nat) : Nat :=
  let shift := bitLength n - 53
  let q := n / 2 ^ shift
  let r := n % 2 ^ shift
  if 2 * r > 2 ^ shift ∨ (2 * r = 2 ^ shift ∧ q % 2 = 1) then (q + 1) * 2 ^ shift
  else q * 2 ^ shift

/-- The double product `x * k` for a natural number `k` that is itself a double: the
exact product `x.mant * k / 2 ^ x.exp` rounded to the nearest double.  With
`x.exp ≤ 1074` a product that needs rounding is at least `2 ^ 53 / 2 ^ 1074`, in the
normal range, where a double has 53 significant bits; a smaller product is exact. -/
def Double.mulNat (x : Double) (k : Nat) : Double :=
  { mant := roundSignificand (x.mant * k), exp := x.exp }

/-- `Math.floor` on a non-negative double, an integer. -/
def mathFloor (x : Double) : Nat := x.mant / 2 ^ x.exp

/-- Number-to-string conversion of a non-negative integer below `10 ^ 21`: its
decimal digits. -/
def numberToString (n : Nat) : String := toString n

/-! ## The page -/

/-- A `div` appended to the chat box by `addMessage`: its class name and the value
assigned to its `innerText`. -/
structure Message where
  className : String
  innerText : JSVal

/-- A file chosen in the file input. -/
structure File where
  name : String
  deriving DecidableEq, Repr

/-- The body of a request. -/
inductive RequestBody where
  | none
  /-- `JSON.stringify(v)` -/
  | json (v : JSVal)
  /-- A `FormData` with its appended fields. -/
  | formData (fields : List (String × File))

/-- A call of `fetch`. -/
structure Request where
  url : String
  method : String
  headers : List (String × String)
  body : RequestBody

/-- What one call of `fetch` leads to: it rejects, or resolves to a response with a
status and a body that is JSON (`some v`) or not (`none`). -/
inductive FetchOutcome where
  | rejected (reason : JSError)
  | response (status : Nat) (body : Option JSVal)

/-- The state of the page and of the browser profile the script runs in. -/
structure State where
  /-- `localStorage`: keys with their values, in insertion order. -/
  localStorage : List (String × String)
  /-- The global variable `username`. -/
  username : String
  /-- `innerText` of the element `username`. -/
  usernameText : String
  /-- `value` of the element `userInput`. -/
  userInput : String
  /-- `files[0]` of the element `fileInput`. -/
  selectedFile : Option File
  /-- The children of the element `chatBox`. -/
  chatBox : List Message
  /-- The value last assigned to `src` of the element `graph-frame`. -/
  frameSrc : JSVal
  /-- `style.display` of the element `graphModal`. -/
  modalDisplay : String
  /-- The messages shown by `alert`, oldest first. -/
  alerts : List String
  /-- The values logged by `console.error`, oldest first. -/
  console : List JSError
  /-- The calls of `fetch`, oldest first. -/
  requests : List Request

/-! ## `localStorage` -/

/-- `localStorage.getItem(key)`; `none` is `null`. -/
def getItem (storage : List (String × String)) (key : String) : Option String :=
  storage.lookup key

/-- `localStorage.setItem(key, value)`: an existing key keeps its place. -/
def setItem : List (String × String) → String → String → List (String × String)
  | [], key, value => [(key, value)]
  | (k, v) :: rest, key, value =>
      if key == k then (k, value) :: rest else (k, v) :: setItem rest key value

/-- The result of `getItem` as a JavaScript value. -/
def storedValue : Option String → JSVal
  | some s => .str s
  | none => .null

/-! ## Session identity (lines 1 to 7) -/

/-- The top-level code of the script, run on every page load.  `draw` is what
`Math.random()` would return; it is used only when a new identity is generated. -/
def sessionInit (draw : Double) (s : State) : State :=
  let stored := getItem s.localStorage "rag_username"
  if !truthy (storedValue stored) then
    let username := "User_" ++ numberToString (mathFloor (draw.mulNat 10000))
    { s with
      localStorage := setItem s.localStorage "rag_username" username
      username := username
      usernameText := username }
  else
    match stored with
    | some username => { s with username := username, usernameText := username }
    -- not reached: `null` is falsy
    | none => s

/-! ## Effects -/

/-- A computation on the page: it ends normally with a value or with a thrown value,
and in both cases leaves a state. -/
def Eff (α : Type) : Type := State → Except JSError α × State

namespace Eff

/-- End normally with `a`. -/
def ret {α : Type} (a : α) : Eff α := fun s => (.ok a, s)

/-- Run `m`, then `f` on its value; a thrown value skips `f`. -/
def andThen {α β : Type} (m : Eff α) (f : α → Eff β) : Eff β := fun s =>
  match m s with
  | (.ok a, s1) => f a s1
  | (.error e, s1) => (.error e, s1)

/-- `try body catch (e) handler`. -/
def tryCatch {α : Type} (body : Eff α) (handler : JSError → Eff α) : Eff α := fun s =>
  match body s with
  | (.ok a, s1) => (.ok a, s1)
  | (.error e, s1) => handler e s1

/-- A pure step that may throw. -/
def lift {α : Type} (r : Except JSError α) : Eff α := fun s => (r, s)

/-- Change the state. -/
def modify (f : State → State) : Eff Unit := fun s => (.ok (), f s)

/-- Read the state. -/
def read {α : Type} (f : State → α) : Eff α := fun s => (.ok (f s), s)

end Eff

instance : Monad Eff where
  pure := Eff.ret
  bind := Eff.andThen

/-! ## The handlers -/

/-- `addMessage(text, sender)` (lines 80 to 85). -/
def addMessage (text : JSVal) (sender : String) : Eff Unit :=
  Eff.modify fun s =>
    { s with chatBox := s.chatBox ++ [{ className := "message " ++ sender, innerText := text }] }

/-- `alert(message)`. -/
def alert (message : String) : Eff Unit :=
  Eff.modify fun s => { s with alerts := s.alerts ++ [message] }

/-- `console.error(e)`. -/
def consoleError (e : JSError) : Eff Unit :=
  Eff.modify fun s => { s with console := s.console ++ [e] }

/-- `await fetch(url, options)`: the call is recorded, then it resolves to the body
of the response or rejects. -/
def fetch (net : FetchOutcome) (request : Request) : Eff (Option JSVal) := fun s =>
  let s1 := { s with requests := s.requests ++ [request] }
  match net with
  | .rejected reason => (.error reason, s1)
  | .response _ body => (.ok body, s1)

/-- `await response.json()`. -/
def json (body : Option JSVal) : Eff JSVal :=
  match body with
  | some v => Eff.ret v
  | none => Eff.lift (.error .jsonSyntax)

/-- `sendMessage()` (lines 9 to 33). -/
def sendMessage (net : FetchOutcome) : Eff Unit := do
  let text ← Eff.read fun s => s.userInput
  if !truthy (.str text) then
    pure ()
  else do
    addMessage (.str text) "user"
    Eff.modify fun s => { s with userInput := "" }
    Eff.tryCatch
      (do
        let username ← Eff.read fun s => s.username
        let response ← fetch net
          { url := "/chat"
            method := "POST"
            headers := [("Content-Type", "application/json"), ("X-User-ID", username)]
            body := .json (.obj [("message", .str text)]) }
        let data ← json response
        let reply ← Eff.lift (getProp data "response")
        addMessage reply "bot")
      (fun _ => addMessage (.str "Error connecting to agent.") "bot")

/-- `uploadFile()` (lines 35 to 56). -/
def uploadFile (net : FetchOutcome) : Eff Unit := do
  let selected ← Eff.read fun s => s.selectedFile
  match selected with
  | none => alert "Please select a file"
  | some file => do
    let formData := [("file", file)]
    addMessage (.str "Uploading and indexing...") "bot"
    Eff.tryCatch
      (do
        let username ← Eff.read fun s => s.username
        let res ← fetch net
          { url := "/upload"
            method := "POST"
            headers := [("X-User-ID", username)]
            body := .formData formData }
        let data ← json res
        let message ← Eff.lift (getProp data "message")
        addMessage message "bot")
      (fun _ => addMessage (.str "Upload failed.") "bot")

/-- `showGraph()` (lines 58 to 74). -/
def showGraph (net : FetchOutcome) : Eff Unit :=
  Eff.tryCatch
    (do
      let username ← Eff.read fun s => s.username
      let res ← fetch net
        { url := "/visualize"
          method := "GET"
          headers := [("X-User-ID", username)]
          body := .none }
      let data ← json res
      let url ← Eff.lift (getProp data "url")
      if truthy url then do
        Eff.modify fun s => { s with frameSrc := url }
        Eff.modify fun s => { s with modalDisplay := "block" }
      else
        alert "No graph data found! Upload a file first.")
    (fun e => consoleError e)

/-- `closeGraph()` (lines 76 to 78). -/
def closeGraph : Eff Unit :=
  Eff.modify fun s => { s with modalDisplay := "none" }

/-- A response body has no `url`: it is not an object with a field `url`.  This is
the condition as the specification words it; JSON `null` satisfies it. -/
def lacksUrl : JSVal → Bool
  | .obj fields => (fields.lookup "url").isNone
  | _ => true

/-- The entry `addMessage(text, "user")` appends. -/
def userEntry (text : String) : Message :=
  { className := "message user", innerText := .str text }

/-- The entry `addMessage(text, "bot")` appends. -/
def botEntry (text : String) : Message :=
  { className := "message bot", innerText := .str text }

/-- A state to try the handlers on. -/
def sampleState : State :=
  { localStorage := [("rag_username", "User_42")]
    username := "User_42"
    usernameText := "User_42"
    userInput := "hi"
    selectedFile := some { name := "notes.pdf" }
    chatBox := [{ className := "message bot", innerText := .str "welcome" }]
    frameSrc := .str ""
    modalDisplay := "none"
    alerts := []
    console := []
    requests := [] }

/-- The sample page with an empty input field. -/
def emptyInputState : State := { sampleState with userInput := "" }

/-- The sample page in a browser profile that has stored nothing yet. -/
def freshProfile : State :=
  { sampleState with localStorage := [], username := "", usernameText := "" }

/-- The double nearest to 0.8498. -/
def drawHigh : Double := { mant := 7654317926678895, exp := 53 }

/-- The double 0.25. -/
def drawLow : Double := { mant := 1, exp := 2 }

/-- The sample page with no file chosen. -/
def noFileState : State := { sampleState with selectedFile := none }

/-- A browser profile in which the empty string is stored as the identity. -/
def blankIdentityProfile : State :=
  { sampleState with localStorage := [("rag_username", "")], username := "", usernameText := "" }

/-! ## Arithmetic of the random identity -/

theorem bitLengthAux_le (fuel : Nat) : ∀ (k n : Nat), n < 2 ^ k → bitLengthAux fuel n ≤ k := by
  induction fuel with
  | zero => intro k n _; simp [bitLengthAux]
  | succ fuel ih =>
    intro k n h
    unfold bitLengthAux
    split
    · exact Nat.zero_le _
    · rename_i hn
      cases k with
      | zero => simp at h; omega
      | succ k =>
        have h2 : n / 2 < 2 ^ k := by
          rw [Nat.div_lt_iff_lt_mul (by decide)]
          rw [pow_succ] at h
          exact h
        have := ih k (n / 2) h2
        omega

theorem bitLength_le (k n : Nat) (h : n < 2 ^ k) : bitLength n ≤ k :=
  bitLengthAux_le n k n h

/-- Rounding moves a number up by at most half a unit in the last place. -/
theorem two_mul_roundSignificand_le (n : Nat) :
    2 * roundSignificand n ≤ 2 * n + 2 ^ (bitLength n - 53) := by
  unfold roundSignificand
  have hdm := Nat.div_add_mod n (2 ^ (bitLength n - 53))
  have hcomm : 2 ^ (bitLength n - 53) * (n / 2 ^ (bitLength n - 53))
      = n / 2 ^ (bitLength n - 53) * 2 ^ (bitLength n - 53) := Nat.mul_comm _ _
  simp only []
  split
  · rename_i hup
    rw [Nat.add_mul, Nat.one_mul]
    rcases hup with hup | ⟨hup, _⟩ <;> omega
  · omega

/-- The double product of a draw and 10000 stays below 10000. -/
theorem mathFloor_mulNat_le (x : Double) (hx : x.isRandomDraw) :
    mathFloor (x.mulNat 10000) ≤ 9999 := by
  obtain ⟨h53, _, hlt⟩ := hx
  have hN : x.mant * 10000 < 2 ^ 67 := by
    have : (2 : Nat) ^ 67 = 2 ^ 53 * 16384 := by norm_num
    omega
  have hshift : bitLength (x.mant * 10000) - 53 ≤ 14 := by
    have := bitLength_le 67 _ hN
    omega
  have hpow : 2 ^ (bitLength (x.mant * 10000) - 53) ≤ 2 ^ 14 :=
    Nat.pow_le_pow_right (by decide) hshift
  have hround := two_mul_roundSignificand_le (x.mant * 10000)
  have hpos : 0 < 2 ^ x.exp := by positivity
  have hlt2 : roundSignificand (x.mant * 10000) < 10000 * 2 ^ x.exp := by
    have : (2 : Nat) ^ 14 = 16384 := by norm_num
    omega
  have : mathFloor (x.mulNat 10000) < 10000 := by
    unfold mathFloor Double.mulNat
    simp only []
    rw [Nat.div_lt_iff_lt_mul hpos]
    exact hlt2
  omega

/-! ## `localStorage` lemmas -/

theorem getItem_setItem (storage : List (String × String)) (key value : String) :
    getItem (setItem storage key value) key = some value := by
  induction storage with
  | nil => simp [setItem, getItem, List.lookup]
  | cons kv rest ih =>
    obtain ⟨k, v⟩ := kv
    unfold setItem
    split
    · rename_i hk
      simp [getItem, List.lookup, hk]
    · rename_i hk
      have hk2 : (key == k) = false := by simpa using hk
      simp only [getItem, List.lookup, hk2]
      exact ih

theorem identity_ne_empty (digits : String) : ("User_" ++ digits) ≠ "" := by
  intro h
  have := congrArg String.length h
  simp [String.length_append] at this
  have h5 : "User_".length = 5 := by decide
  omega

theorem truthy_identity (digits : String) : truthy (.str ("User_" ++ digits)) = true := by
  simp [truthy, identity_ne_empty]

/-! ## Running the effects -/

theorem Eff.bind_eq {α β : Type} (m : Eff α) (f : α → Eff β) : (m >>= f) = Eff.andThen m f := rfl

theorem Eff.pure_eq {α : Type} (a : α) : (pure a : Eff α) = Eff.ret a := rfl

/-! ## Boundary cases -/

/-- The double product is not the exact product: at the double nearest to 0.8498 the
exact product is just below 8498 and rounds up to it, so the script computes 8498
where the exact floor is 8497. -/
theorem mathFloor_mulNat_above_exact :
    drawHigh.isRandomDraw ∧ mathFloor (drawHigh.mulNat 10000) = 8498 ∧
    drawHigh.mant * 10000 / 2 ^ drawHigh.exp = 8497 := by
  decide

/-- On a body without `url` that is neither `null` nor `undefined` the property read
gives `undefined`. -/
theorem getProp_url_of_lacksUrl (body : JSVal) (hno : lacksUrl body = true)
    (hnull : body ≠ .null) (hundef : body ≠ .undefined) :
    getProp body "url" = .ok .undefined := by
  cases body with
  | undefined => exact absurd rfl hundef
  | null => exact absurd rfl hnull
  | obj fields =>
    cases hlook : fields.lookup "url" with
    | none => simp [getProp, hlook]
    | some v => simp [lacksUrl, hlook] at hno
  | bool b => rfl
  | num n => rfl
  | str t => rfl
  | arr items => rfl

/-! ## The claims -/

/-- C1: with a non-empty input text `t`, when the request to /chat succeeds with the
JSON body whose only field is `response` with the string `r`, `sendMessage` ends
normally and leaves the message list equal to the previous list followed by exactly
the user entry for `t` and then the bot entry for `r`. -/
theorem sendMessage_success (s : State) (t r : String) (status : Nat)
    (hin : s.userInput = t) (ht : t ≠ "") :
    (sendMessage (.response status (some (.obj [("response", .str r)]))) s).1 = .ok () ∧
    (sendMessage (.response status (some (.obj [("response", .str r)]))) s).2.chatBox
      = s.chatBox ++ [userEntry t, botEntry r] := by
  subst hin
  simp [sendMessage, Eff.bind_eq, Eff.pure_eq, Eff.andThen, Eff.read, Eff.modify, Eff.tryCatch,
    Eff.lift, Eff.ret, addMessage, fetch, json, getProp, truthy, ht, userEntry, botEntry,
    List.lookup]

/-- Witness of C1 on the sample page: input `hi`, reply `hello`. -/
theorem sendMessage_success_witness :
    (sendMessage (.response 200 (some (.obj [("response", .str "hello")]))) sampleState).1 = .ok () ∧
    (sendMessage (.response 200 (some (.obj [("response", .str "hello")]))) sampleState).2.chatBox
      = sampleState.chatBox ++ [userEntry "hi", botEntry "hello"] :=
  sendMessage_success sampleState "hi" "hello" 200 rfl (by decide)

/-- C2: with a non-empty input text `t`, when `fetch` rejects, `sendMessage` leaves the
message list equal to the previous list followed by exactly the user entry for `t` and
then the bot entry `Error connecting to agent.`, and it ends normally: the rejection
does not leave `sendMessage`. -/
theorem sendMessage_fetch_rejected (s : State) (t : String) (reason : JSError)
    (hin : s.userInput = t) (ht : t ≠ "") :
    (sendMessage (.rejected reason) s).1 = .ok () ∧
    (sendMessage (.rejected reason) s).2.chatBox
      = s.chatBox ++ [userEntry t, botEntry "Error connecting to agent."] := by
  subst hin
  simp [sendMessage, Eff.bind_eq, Eff.pure_eq, Eff.andThen, Eff.read, Eff.modify, Eff.tryCatch,
    Eff.ret, addMessage, fetch, truthy, ht, userEntry, botEntry]

/-- Witness of C2 on the sample page. -/
theorem sendMessage_fetch_rejected_witness :
    (sendMessage (.rejected .fetchFailed) sampleState).1 = .ok () ∧
    (sendMessage (.rejected .fetchFailed) sampleState).2.chatBox
      = sampleState.chatBox ++ [userEntry "hi", botEntry "Error connecting to agent."] :=
  sendMessage_fetch_rejected sampleState "hi" .fetchFailed rfl (by decide)

/-- C3: when the input text is the empty string, `sendMessage` ends normally and leaves
every state as it was, whatever the network would have answered: the message list, the
request log, the input field, the modal and the stored identity are all unchanged. -/
theorem sendMessage_empty_noop (net : FetchOutcome) (s : State) (hin : s.userInput = "") :
    sendMessage net s = (.ok (), s) ∧
    (sendMessage net s).2.chatBox = s.chatBox ∧
    (sendMessage net s).2.requests = s.requests ∧
    (sendMessage net s).2.userInput = s.userInput ∧
    (sendMessage net s).2.modalDisplay = s.modalDisplay ∧
    (sendMessage net s).2.localStorage = s.localStorage ∧
    (sendMessage net s).2.username = s.username := by
  have h : sendMessage net s = (.ok (), s) := by
    simp [sendMessage, Eff.bind_eq, Eff.pure_eq, Eff.andThen, Eff.read, Eff.ret, truthy, hin]
  simp [h]

/-- Witness of C3: the sample page with an empty input field. -/
theorem sendMessage_empty_noop_witness :
    sendMessage (.response 200 (some (.obj [("response", .str "hello")]))) emptyInputState
      = (.ok (), emptyInputState) :=
  (sendMessage_empty_noop _ emptyInputState rfl).1

/-- C4: from a storage with no value under `rag_username`, the session routine run on
page load and run again on reload (a new page over the storage the first run left)
gives the same identity both times, whatever the two random draws: the second run
returns what the first run stored and leaves the storage as it is. -/
theorem sessionInit_twice_same (page reloaded : State) (d1 d2 : Double)
    (hnone : getItem page.localStorage "rag_username" = none) :
    getItem (sessionInit d1 page).localStorage "rag_username"
      = some (sessionInit d1 page).username ∧
    (sessionInit d2 { reloaded with localStorage := (sessionInit d1 page).localStorage }).username
      = (sessionInit d1 page).username ∧
    (sessionInit d2 { reloaded with localStorage := (sessionInit d1 page).localStorage }).usernameText
      = (sessionInit d1 page).usernameText ∧
    (sessionInit d2 { reloaded with localStorage := (sessionInit d1 page).localStorage }).localStorage
      = (sessionInit d1 page).localStorage := by
  have h1 : sessionInit d1 page =
      { page with
        localStorage := setItem page.localStorage "rag_username"
          ("User_" ++ numberToString (mathFloor (d1.mulNat 10000)))
        username := "User_" ++ numberToString (mathFloor (d1.mulNat 10000))
        usernameText := "User_" ++ numberToString (mathFloor (d1.mulNat 10000)) } := by
    simp [sessionInit, hnone, storedValue, truthy]
  rw [h1]
  have hget := getItem_setItem page.localStorage "rag_username"
    ("User_" ++ numberToString (mathFloor (d1.mulNat 10000)))
  have htr := truthy_identity (numberToString (mathFloor (d1.mulNat 10000)))
  refine ⟨hget, ?_, ?_, ?_⟩ <;> simp [sessionInit, hget, storedValue, htr]

/-- Witness of C4: an empty storage, two different draws. -/
theorem sessionInit_twice_same_witness :
    (sessionInit drawLow { sampleState with
        localStorage := (sessionInit drawHigh freshProfile).localStorage }).username
      = (sessionInit drawHigh freshProfile).username :=
  (sessionInit_twice_same freshProfile sampleState drawHigh drawLow rfl).2.1

/-- C5: when no identity is stored, for every random draw `x` (a double in `[0, 1)`)
the session routine produces the string `User_` followed by the decimal digits of the
integer `n = Math.floor(x * 10000)`, the product being the double product the script
computes; `n` is at most 9999, and afterwards the value stored under `rag_username`
and the displayed username both equal that string. -/
theorem sessionInit_fresh (s : State) (x : Double) (hx : x.isRandomDraw)
    (hnone : getItem s.localStorage "rag_username" = none) :
    mathFloor (x.mulNat 10000) ≤ 9999 ∧
    (sessionInit x s).username = "User_" ++ numberToString (mathFloor (x.mulNat 10000)) ∧
    getItem (sessionInit x s).localStorage "rag_username"
      = some ("User_" ++ numberToString (mathFloor (x.mulNat 10000))) ∧
    (sessionInit x s).usernameText
      = "User_" ++ numberToString (mathFloor (x.mulNat 10000)) := by
  have h1 : sessionInit x s =
      { s with
        localStorage := setItem s.localStorage "rag_username"
          ("User_" ++ numberToString (mathFloor (x.mulNat 10000)))
        username := "User_" ++ numberToString (mathFloor (x.mulNat 10000))
        usernameText := "User_" ++ numberToString (mathFloor (x.mulNat 10000)) } := by
    simp [sessionInit, hnone, storedValue, truthy]
  rw [h1]
  exact ⟨mathFloor_mulNat_le x hx, rfl, getItem_setItem _ _ _, rfl⟩

/-- Witness of C5: the draw nearest to 0.8498 on an empty storage gives `User_8498`. -/
theorem sessionInit_fresh_witness :
    drawHigh.isRandomDraw ∧ getItem freshProfile.localStorage "rag_username" = none ∧
    (sessionInit drawHigh freshProfile).username = "User_8498" :=
  ⟨by decide, rfl, (sessionInit_fresh freshProfile drawHigh (by decide) rfl).2.1.trans (by decide)⟩

/-- C6: with a file selected, `uploadFile` ends normally and extends the message list
by exactly two bot entries, the earlier entries unchanged: first
`Uploading and indexing...`, then the text `m` when the request to /upload succeeds
with the JSON body whose only field is `message` with the string `m`, or
`Upload failed.` when `fetch` rejects or the body cannot be read as JSON. -/
theorem uploadFile_appends (s : State) (f : File) (hsel : s.selectedFile = some f) :
    (∀ (status : Nat) (m : String),
      (uploadFile (.response status (some (.obj [("message", .str m)]))) s).1 = .ok () ∧
      (uploadFile (.response status (some (.obj [("message", .str m)]))) s).2.chatBox
        = s.chatBox ++ [botEntry "Uploading and indexing...", botEntry m]) ∧
    (∀ (reason : JSError),
      (uploadFile (.rejected reason) s).1 = .ok () ∧
      (uploadFile (.rejected reason) s).2.chatBox
        = s.chatBox ++ [botEntry "Uploading and indexing...", botEntry "Upload failed."]) ∧
    (∀ (status : Nat),
      (uploadFile (.response status none) s).1 = .ok () ∧
      (uploadFile (.response status none) s).2.chatBox
        = s.chatBox ++ [botEntry "Uploading and indexing...", botEntry "Upload failed."]) := by
  refine ⟨?_, ?_, ?_⟩ <;> intros <;>
    simp [uploadFile, Eff.bind_eq, Eff.andThen, Eff.read, Eff.modify, Eff.tryCatch,
      Eff.lift, Eff.ret, addMessage, fetch, json, getProp, hsel, botEntry, List.lookup]

/-- Witness of C6 on the sample page, whose file input holds `notes.pdf`. -/
theorem uploadFile_appends_witness :
    (uploadFile (.response 200 (some (.obj [("message", .str "indexed")]))) sampleState).2.chatBox
      = sampleState.chatBox ++ [botEntry "Uploading and indexing...", botEntry "indexed"] ∧
    (uploadFile (.rejected .fetchFailed) sampleState).2.chatBox
      = sampleState.chatBox ++ [botEntry "Uploading and indexing...", botEntry "Upload failed."] :=
  ⟨((uploadFile_appends sampleState { name := "notes.pdf" } rfl).1 200 "indexed").2,
   ((uploadFile_appends sampleState { name := "notes.pdf" } rfl).2.1 .fetchFailed).2⟩

/-- C7: when no file is selected, `uploadFile` raises exactly one alert,
`Please select a file`, and does nothing else: it ends normally, the request log gains
no request and the message list is unchanged. -/
theorem uploadFile_no_file (net : FetchOutcome) (s : State) (hsel : s.selectedFile = none) :
    uploadFile net s = (.ok (), { s with alerts := s.alerts ++ ["Please select a file"] }) ∧
    (uploadFile net s).2.alerts = s.alerts ++ ["Please select a file"] ∧
    (uploadFile net s).2.requests = s.requests ∧
    (uploadFile net s).2.chatBox = s.chatBox := by
  have h : uploadFile net s
      = (.ok (), { s with alerts := s.alerts ++ ["Please select a file"] }) := by
    simp [uploadFile, Eff.bind_eq, Eff.andThen, Eff.read, Eff.modify, alert, hsel]
  simp [h]

/-- Witness of C7: the sample page with no file chosen. -/
theorem uploadFile_no_file_witness :
    (uploadFile (.response 200 (some (.obj [("message", .str "indexed")]))) noFileState).2.alerts
      = ["Please select a file"] ∧
    (uploadFile (.response 200 (some (.obj [("message", .str "indexed")]))) noFileState).2.requests
      = [] :=
  ⟨(uploadFile_no_file _ noFileState rfl).2.1, (uploadFile_no_file _ noFileState rfl).2.2.1⟩

/-- C8 as worded fails on a body that is JSON `null`: the request succeeds and the
body has no `url`, yet reading `data.url` throws inside the `try`, the error is only
logged, and no alert is raised. -/
theorem showGraph_null_no_alert :
    lacksUrl .null = true ∧
    sampleState.modalDisplay = "none" ∧
    (showGraph (.response 200 (some .null)) sampleState).1 = .ok () ∧
    (showGraph (.response 200 (some .null)) sampleState).2.alerts = [] ∧
    (showGraph (.response 200 (some .null)) sampleState).2.alerts = sampleState.alerts ∧
    (showGraph (.response 200 (some .null)) sampleState).2.console = [.typeError] :=
  ⟨rfl, rfl, rfl, rfl, rfl, rfl⟩

/-- C8 as amended: starting from a hidden modal, when the request to /visualize
succeeds: if the `url` of the body is a non-empty string `u`, `showGraph` sets the
frame source to `u`, makes the modal visible and raises no alert; if the body is not
JSON `null` and has no `url` (as the empty object), `showGraph` raises exactly one
alert, leaves the frame source unchanged and the modal is still hidden; if the body is
JSON `null`, `showGraph` logs the error, raises no alert, and leaves the frame source
unchanged and the modal hidden.  In all cases the message list is unchanged and
`showGraph` ends normally.  (`response.json()` never resolves to `undefined`, which is
why the second case leaves that value out.) -/
theorem showGraph_success (s : State) (status : Nat) (hhidden : s.modalDisplay = "none") :
    (∀ (body : JSVal) (u : String), getProp body "url" = .ok (.str u) → u ≠ "" →
      (showGraph (.response status (some body)) s).1 = .ok () ∧
      (showGraph (.response status (some body)) s).2.frameSrc = .str u ∧
      (showGraph (.response status (some body)) s).2.modalDisplay = "block" ∧
      (showGraph (.response status (some body)) s).2.alerts = s.alerts ∧
      (showGraph (.response status (some body)) s).2.chatBox = s.chatBox) ∧
    (∀ (body : JSVal), lacksUrl body = true → body ≠ .null → body ≠ .undefined →
      (showGraph (.response status (some body)) s).1 = .ok () ∧
      (showGraph (.response status (some body)) s).2.alerts
        = s.alerts ++ ["No graph data found! Upload a file first."] ∧
      (showGraph (.response status (some body)) s).2.frameSrc = s.frameSrc ∧
      (showGraph (.response status (some body)) s).2.modalDisplay = "none" ∧
      (showGraph (.response status (some body)) s).2.chatBox = s.chatBox) ∧
    ((showGraph (.response status (some .null)) s).1 = .ok () ∧
      (showGraph (.response status (some .null)) s).2.alerts = s.alerts ∧
      (showGraph (.response status (some .null)) s).2.console = s.console ++ [.typeError] ∧
      (showGraph (.response status (some .null)) s).2.frameSrc = s.frameSrc ∧
      (showGraph (.response status (some .null)) s).2.modalDisplay = "none" ∧
      (showGraph (.response status (some .null)) s).2.chatBox = s.chatBox) := by
  refine ⟨?_, ?_, ?_⟩
  · intro body u hurl hu
    simp [showGraph, Eff.bind_eq, Eff.andThen, Eff.read, Eff.modify, Eff.tryCatch,
      Eff.lift, Eff.ret, fetch, json, hurl, truthy, hu]
  · intro body hno hnull hundef
    have hurl := getProp_url_of_lacksUrl body hno hnull hundef
    simp [showGraph, Eff.bind_eq, Eff.andThen, Eff.read, Eff.modify, Eff.tryCatch,
      Eff.lift, Eff.ret, fetch, json, hurl, truthy, alert, hhidden]
  · simp [showGraph, Eff.bind_eq, Eff.andThen, Eff.read, Eff.modify, Eff.tryCatch,
      Eff.lift, Eff.ret, fetch, json, getProp, consoleError, hhidden]

/-- Witness of the amended C8 on the sample page: the body with the url `http://x`,
and the empty object. -/
theorem showGraph_success_witness :
    ((showGraph (.response 200 (some (.obj [("url", .str "http://x")]))) sampleState).2.frameSrc
        = .str "http://x" ∧
      (showGraph (.response 200 (some (.obj [("url", .str "http://x")]))) sampleState).2.modalDisplay
        = "block") ∧
    ((showGraph (.response 200 (some (.obj []))) sampleState).2.alerts
        = ["No graph data found! Upload a file first."] ∧
      (showGraph (.response 200 (some (.obj []))) sampleState).2.modalDisplay = "none") :=
  ⟨⟨((showGraph_success sampleState 200 rfl).1 (.obj [("url", .str "http://x")]) "http://x"
        rfl (by decide)).2.1,
    ((showGraph_success sampleState 200 rfl).1 (.obj [("url", .str "http://x")]) "http://x"
        rfl (by decide)).2.2.1⟩,
   ⟨((showGraph_success sampleState 200 rfl).2.1 (.obj []) rfl (by simp) (by simp)).2.1,
    ((showGraph_success sampleState 200 rfl).2.1 (.obj []) rfl (by simp) (by simp)).2.2.2.1⟩⟩

/-- C9: the message list is append-only.  For every state and every outcome of the
network call, `sendMessage`, `uploadFile`, `showGraph` and `closeGraph` leave a message
list that starts with the previous list, and `addMessage` adds exactly one entry at the
end. -/
theorem chatBox_append_only (net : FetchOutcome) (s : State) :
    s.chatBox <+: (sendMessage net s).2.chatBox ∧
    s.chatBox <+: (uploadFile net s).2.chatBox ∧
    s.chatBox <+: (showGraph net s).2.chatBox ∧
    s.chatBox <+: (closeGraph s).2.chatBox ∧
    (∀ (text : JSVal) (sender : String),
      (addMessage text sender s).2.chatBox
        = s.chatBox ++ [{ className := "message " ++ sender, innerText := text }]) := by
  refine ⟨?_, ?_, ?_, ?_, ?_⟩
  · by_cases hin : truthy (.str s.userInput) = true
    · rcases net with reason | ⟨status, _ | data⟩
      · simp [sendMessage, Eff.bind_eq, Eff.pure_eq, Eff.andThen, Eff.read, Eff.modify,
          Eff.tryCatch, Eff.ret, addMessage, fetch, hin]
      · simp [sendMessage, Eff.bind_eq, Eff.pure_eq, Eff.andThen, Eff.read, Eff.modify,
          Eff.tryCatch, Eff.ret, Eff.lift, addMessage, fetch, json, hin]
      · cases hget : getProp data "response" <;>
          simp [sendMessage, Eff.bind_eq, Eff.pure_eq, Eff.andThen, Eff.read, Eff.modify,
            Eff.tryCatch, Eff.ret, Eff.lift, addMessage, fetch, json, hin, hget]
    · simp [sendMessage, Eff.bind_eq, Eff.pure_eq, Eff.andThen, Eff.read, Eff.ret, hin]
  · cases hsel : s.selectedFile with
    | none =>
      simp [uploadFile, Eff.bind_eq, Eff.andThen, Eff.read, Eff.modify, alert, hsel]
    | some file =>
      rcases net with reason | ⟨status, _ | data⟩
      · simp [uploadFile, Eff.bind_eq, Eff.andThen, Eff.read, Eff.modify,
          Eff.tryCatch, Eff.ret, addMessage, fetch, hsel]
      · simp [uploadFile, Eff.bind_eq, Eff.andThen, Eff.read, Eff.modify,
          Eff.tryCatch, Eff.ret, Eff.lift, addMessage, fetch, json, hsel]
      · cases hget : getProp data "message" <;>
          simp [uploadFile, Eff.bind_eq, Eff.andThen, Eff.read, Eff.modify,
            Eff.tryCatch, Eff.ret, Eff.lift, addMessage, fetch, json, hsel, hget]
  · rcases net with reason | ⟨status, _ | data⟩
    · simp [showGraph, Eff.bind_eq, Eff.andThen, Eff.read, Eff.modify,
        Eff.tryCatch, Eff.ret, consoleError, fetch]
    · simp [showGraph, Eff.bind_eq, Eff.andThen, Eff.read, Eff.modify,
        Eff.tryCatch, Eff.ret, Eff.lift, consoleError, fetch, json]
    · cases hget : getProp data "url" with
      | error e =>
        simp [showGraph, Eff.bind_eq, Eff.andThen, Eff.read, Eff.modify,
          Eff.tryCatch, Eff.ret, Eff.lift, consoleError, fetch, json, hget]
      | ok url =>
        by_cases hurl : truthy url = true <;>
          simp [showGraph, Eff.bind_eq, Eff.andThen, Eff.read, Eff.modify,
            Eff.tryCatch, Eff.ret, Eff.lift, consoleError, alert, fetch, json, hget, hurl]
  · simp [closeGraph, Eff.modify]
  · intro text sender
    simp [addMessage, Eff.modify]

/-- C10, the stored empty string: the session routine does not reuse it.  With the
empty string stored under `rag_username` and the draw 0.25, the identity becomes
`User_2500` and the storage is rewritten. -/
theorem sessionInit_blank_regenerated :
    getItem blankIdentityProfile.localStorage "rag_username" = some "" ∧
    (sessionInit drawLow blankIdentityProfile).username = "User_2500" ∧
    (sessionInit drawLow blankIdentityProfile).username ≠ "" ∧
    (sessionInit drawLow blankIdentityProfile).usernameText ≠ "" ∧
    (sessionInit drawLow blankIdentityProfile).localStorage = [("rag_username", "User_2500")] ∧
    (sessionInit drawLow blankIdentityProfile).localStorage
      ≠ blankIdentityProfile.localStorage := by
  decide

/-- C10 as amended: for every storage in which `rag_username` holds a non-empty string
`u`, the session routine reuses it, whatever the draw: the identity and the displayed
username equal `u`, nothing else changes, and the storage is left as it is. -/
theorem sessionInit_reuses_stored (s : State) (u : String) (draw : Double)
    (hstored : getItem s.localStorage "rag_username" = some u) (hu : u ≠ "") :
    sessionInit draw s = { s with username := u, usernameText := u } ∧
    (sessionInit draw s).username = u ∧
    (sessionInit draw s).usernameText = u ∧
    (sessionInit draw s).localStorage = s.localStorage := by
  have h : sessionInit draw s = { s with username := u, usernameText := u } := by
    simp [sessionInit, hstored, storedValue, truthy, hu]
  simp [h]

/-- Witness of the amended C10: the sample page holds `User_42`. -/
theorem sessionInit_reuses_stored_witness :
    (sessionInit drawHigh sampleState).username = "User_42" ∧
    (sessionInit drawHigh sampleState).localStorage = [("rag_username", "User_42")] :=
  ⟨(sessionInit_reuses_stored sampleState "User_42" drawHigh rfl (by decide)).2.1,
   (sessionInit_reuses_stored sampleState "User_42" drawHigh rfl (by decide)).2.2.2⟩

end RagClient
